import Mathlib

/-!
Shallow embedding of hoggy-train-sounds-and-lights.ino (the event arbitration
and sequencing engine of the model-train controller): the global scheduler
state, the four sound sub-machines (melody player, chuff sequencer, whistle
sequencer, announcement), the lighting animator, and the top-level control
loop. Line numbers refer to src/hoggy-train-sounds-and-lights.ino.

Hardware collaborators (Mozzi oscillators, Talkie speech, NeoPixel strip) are
modelled by the scalar values the program writes into them (oscillator
frequencies, the event-delay duration, the envelope parameters, the three
pixel colors); their internal signal processing is outside the embedding.
Real-time passage is an oracle: a loop tick taken while Mozzi is playing
either leaves the delay running or sees it expire (a Bool input), and the
pseudo-random draws of the lighting animator are oracle inputs as well.
-/

namespace HoggyTrain

/-! ### Configuration constants (lines 167-273) -/

def CONTROL_RATE : Nat := 256

def MOZZI_CHUFF : Nat := 1
def MOZZI_NOTE : Nat := 2
def MOZZI_WHISTLE : Nat := 3

def CHUFF_DELAY : Int := 1100
def NUM_CHUFFS : Nat := 15

def FLICKERS_PER_SOUND : Nat := 300

/-! Note frequencies (lines 186-218). -/

def NOTE_CS4 : Int := 277
def NOTE_D4 : Int := 294
def NOTE_DS4 : Int := 311
def NOTE_E4 : Int := 330
def NOTE_F4 : Int := 349
def NOTE_FS4 : Int := 370
def NOTE_G4 : Int := 392
def NOTE_GS4 : Int := 415
def NOTE_A4 : Int := 440
def NOTE_AS4 : Int := 466
def NOTE_B4 : Int := 494
def NOTE_C5 : Int := 523
def NOTE_CS5 : Int := 554
def NOTE_D5 : Int := 587
def NOTE_DS5 : Int := 622
def NOTE_E5 : Int := 659
def NOTE_F5 : Int := 698
def NOTE_FS5 : Int := 740
def NOTE_G5 : Int := 784
def NOTE_GS5 : Int := 831
def NOTE_A5 : Int := 880
def NOTE_AS5 : Int := 932
def NOTE_B5 : Int := 988
def NOTE_C6 : Int := 1047
def NOTE_CS6 : Int := 1109
def NOTE_D6 : Int := 1175
def NOTE_DS6 : Int := 1245
def NOTE_E6 : Int := 1319
def NOTE_F6 : Int := 1397
def NOTE_C7 : Int := 2093
def NOTE_D7 : Int := 2349
def NOTE_E7 : Int := 2637
def NOTE_F7 : Int := 2794

/-! Whistle stages and durations (lines 260-273). -/

def WHISTLE_INITIAL : Nat := 0
def WHISTLE_TRITONE : Nat := 1
def WHISTLE_FADE : Nat := 2
def WHISTLE_DUD : Nat := 3

def WHISTLE_INITIAL_DURATION : Int := 900
def WHISTLE_TRITONE_DURATION : Int := 900
def WHISTLE_FADE_DURATION : Int := 0
def WHISTLE_DUD_DURATION : Int := 0

def WHISTLE_A : Int := NOTE_B5
def WHISTLE_B : Int := NOTE_G5
def WHISTLE_C : Int := NOTE_G5
def WHISTLE_D : Int := NOTE_D5

/-! ### Melody tables (lines 313-449) -/

/-- Hedwig's theme pitches, `melody[]` (lines 313-329). -/
def melody : List Int := [NOTE_B4,
  NOTE_E5, NOTE_G5, NOTE_FS5,
  NOTE_E5, NOTE_B5,
  NOTE_A5,
  NOTE_FS5,
  NOTE_E5, NOTE_G5, NOTE_FS5,
  NOTE_DS5, NOTE_F5,
  NOTE_B4,

  NOTE_B4,
  NOTE_E5, NOTE_G5, NOTE_FS5,
  NOTE_E5, NOTE_B5,
  NOTE_D6,
  NOTE_CS6, NOTE_C6,
  NOTE_GS5, NOTE_C6, NOTE_B5,
  NOTE_AS5, NOTE_AS4, NOTE_G5,
  NOTE_E5]

/-- Hedwig's theme duration codes, `melodyDurations[]` (lines 331-347). -/
def melodyDurations : List Int := [4,
  -4, 8, 4,
  2, 4,
  -2,
  -2,
  -4, 8, 4,
  2, 4,
  -1,
  4,

  -4, 8, 4,
  2, 4,
  2, 4,
  2, 4,
  -4, 8, 4,
  2, 4,
  -1]

def MELODY_LENGTH : Nat := 30

/-- Main-theme snippet pitches, `melody2[]` (lines 359-402). -/
def melody2 : List Int := [
  NOTE_E5,
  NOTE_E6,
  NOTE_C6,
  NOTE_E6,
  NOTE_C6,
  NOTE_F6,
  NOTE_E6,
  NOTE_DS6,
  NOTE_DS6,
  NOTE_E6,
  NOTE_C6,
  NOTE_A5,
  NOTE_DS5,
  NOTE_C6,
  NOTE_A5,

  NOTE_A4,
  NOTE_B4,
  NOTE_C5,
  NOTE_G5, NOTE_G5, NOTE_G5,
  NOTE_F5,
  NOTE_C6,
  NOTE_E6,
  NOTE_C6,
  NOTE_F5, NOTE_F5,
  NOTE_D5,

  NOTE_E5,
  NOTE_E6,
  NOTE_C6,
  NOTE_E6,
  NOTE_C6,
  NOTE_F6,
  NOTE_E6,
  NOTE_DS6,
  NOTE_DS6,
  NOTE_E6,
  NOTE_C6,
  NOTE_A5,
  NOTE_DS5,
  NOTE_C6,
  NOTE_A5]

/-- Main-theme duration codes, `melody2Durations[]` (lines 404-447). -/
def melody2Durations : List Int := [
  4,
  2,
  4,
  2,
  4,
  2,
  4,
  2,
  4,
  -4,
  8,
  -8,
  2,
  4,
  1,

  -4,
  -4,
  4,
  4, 4, 4,
  4,
  4,
  4,
  4,
  4, 4,
  1,

  4,
  2,
  4,
  2,
  4,
  2,
  4,
  2,
  4,
  -4,
  8,
  -8,
  2,
  4,
  -1]

def MELODY2_LENGTH : Nat := 43

/-- The tables agree with the lengths the player walks them by (the source
relies on this: index arithmetic is bounded by the declared lengths). -/
lemma melody_table_lengths :
    melody.length = MELODY_LENGTH ∧ melodyDurations.length = MELODY_LENGTH ∧
    melody2.length = MELODY2_LENGTH ∧ melody2Durations.length = MELODY2_LENGTH := by
  decide

/-! ### The data model: pixels and the global program state -/

/-- One WS2812 pixel color, as passed to `strip.setPixelColor(n, r, g, b)`. -/
structure Color where
  r : Nat
  g : Nat
  b : Nat
deriving DecidableEq, Repr

/-- The three light zones of the NeoPixel strip (LED_COUNT = 3). -/
structure Zones where
  z0 : Color
  z1 : Color
  z2 : Color
deriving DecidableEq, Repr

/-- `strip.setPixelColor(n, r, g, b)`: write one zone, leave the others. -/
def setPixelColor (z : Zones) (n : Fin 3) (c : Color) : Zones :=
  match n with
  | 0 => { z with z0 := c }
  | 1 => { z with z1 := c }
  | 2 => { z with z2 := c }

/-- Read one zone of the strip. -/
def zoneColor (z : Zones) (n : Fin 3) : Color :=
  match n with
  | 0 => z.z0
  | 1 => z.z1
  | 2 => z.z2

/-- The program's mutable state: the global scheduler variables (lines
297-303), the static tick counter of `loop()` (line 760), the scalar state
the program writes into its collaborators (oscillator frequencies, the
`kDelay` duration, the `kEnvelope` parameters), and the three pixel colors.
Audio-sample-level state (`gain`, oscillator phases) is not modelled. -/
structure TrainState where
  inMozzi : Nat
  mozziMode : Nat
  inMelody : Nat
  curMelodyNote : Nat
  whichMelody : Nat
  inChuffing : Nat
  curChuff : Nat
  chuffDelay : Int
  inWhistle : Nat
  curWhistle : Nat
  whichSound : Nat
  counter : Nat
  aSinFreq : Int
  aSquareFreq : Int
  bSquareFreq : Int
  cSquareFreq : Int
  dSquareFreq : Int
  kDelayDur : Int
  kEnvAttack : Int
  kEnvDecay : Int
  zones : Zones
deriving DecidableEq, Repr

/-! ### Melody player (lines 493-542) -/

/-- `playNote(freq, duration)` (lines 493-500): point the sine oscillator at
the pitch, mark Mozzi busy in note mode, and start the end-of-note delay. -/
def playNote (s : TrainState) (freq duration : Int) : TrainState :=
  { s with aSinFreq := freq, inMozzi := 1, mozziMode := MOZZI_NOTE,
           kDelayDur := duration }

/-- Lines 514-516: a zero duration code is replaced by 1 before conversion. -/
def fixZeroDuration (d : Int) : Int :=
  if d = 0 then 1 else d

/-- Lines 514-522: convert a duration code to a playback length in
milliseconds: positive codes give `1024 / code`, negative (dotted) codes give
`(1024 * 3) / (|code| * 2)`. -/
def noteDurationMs (duration : Int) : Int :=
  let duration := fixZeroDuration duration
  if duration > 0 then 1024 / duration
  else (1024 * 3) / ((-duration) * 2)

/-- `playNextNoteInMelody()` (lines 503-529). -/
def playNextNoteInMelody (s : TrainState) : TrainState :=
  let duration : Int :=
    if s.whichMelody = 0 then melodyDurations.getD s.curMelodyNote 0
    else melody2Durations.getD s.curMelodyNote 0
  let note : Int :=
    if s.whichMelody = 0 then melody.getD s.curMelodyNote 0
    else melody2.getD s.curMelodyNote 0
  let melodyLength : Nat :=
    if s.whichMelody = 0 then MELODY_LENGTH else MELODY2_LENGTH
  let s := playNote s note (noteDurationMs duration)
  let s := { s with curMelodyNote := s.curMelodyNote + 1 }
  if s.curMelodyNote ≥ melodyLength then
    { s with curMelodyNote := 0, inMelody := 0 }
  else s

/-- `startMelody()` (lines 532-542): `whichMelody = whichSound` clamped to 1,
then the first note is played by the launch itself. -/
def startMelody (s : TrainState) : TrainState :=
  let s := { s with inMelody := 1, curMelodyNote := 0 }
  let s := { s with whichMelody := if s.whichSound > 0 then 1 else s.whichSound }
  playNextNoteInMelody s

/-! ### Whistle (tone) sequencer (lines 545-584) -/

/-- `whistle(whichWhistle)` (lines 545-566): dispatch on the stage. -/
def whistle (s : TrainState) (whichWhistle : Nat) : TrainState :=
  let s := { s with inMozzi := 1, mozziMode := MOZZI_WHISTLE }
  if whichWhistle = WHISTLE_TRITONE then
    { s with aSquareFreq := WHISTLE_A, bSquareFreq := WHISTLE_B,
             cSquareFreq := WHISTLE_C, dSquareFreq := WHISTLE_D,
             kDelayDur := WHISTLE_TRITONE_DURATION }
  else if whichWhistle = WHISTLE_INITIAL then
    { s with aSquareFreq := WHISTLE_A, kDelayDur := WHISTLE_INITIAL_DURATION }
  else
    { s with aSquareFreq := WHISTLE_A, kDelayDur := WHISTLE_FADE_DURATION }

/-- `nextWhistle()` (lines 569-577): play the current stage, advance, and
finish once the stage counter passes WHISTLE_FADE. -/
def nextWhistle (s : TrainState) : TrainState :=
  let s := whistle s s.curWhistle
  let s := { s with curWhistle := s.curWhistle + 1 }
  if s.curWhistle > WHISTLE_FADE then
    { s with curWhistle := 0, inWhistle := 0 }
  else s

/-- `startWhistle()` (lines 580-584). -/
def startWhistle (s : TrainState) : TrainState :=
  nextWhistle { s with inWhistle := 1, curWhistle := 0 }

/-! ### Chuff (pulse) sequencer (lines 588-627) -/

/-- `chuff()` (lines 588-604): the random draws of lines 593-595 are
overwritten by the fixed values of lines 596-598 (duration 1000, attack 75,
decay 925), so the pulse is deterministic; the end-of-pulse delay is the
pulse duration plus the current inter-pulse delay. -/
def chuff (s : TrainState) : TrainState :=
  { s with inMozzi := 1, mozziMode := MOZZI_CHUFF,
           kEnvAttack := 75, kEnvDecay := 925,
           kDelayDur := 1000 + s.chuffDelay }

/-- `chuffNextChuff()` (lines 607-619): one pulse, then the inter-pulse delay
shrinks by 150 clamped at 50, and the pulse counter advances. -/
def chuffNextChuff (s : TrainState) : TrainState :=
  let s := chuff s
  let s := { s with chuffDelay := s.chuffDelay - 150 }
  let s := if s.chuffDelay < 50 then { s with chuffDelay := 50 } else s
  let s := { s with curChuff := s.curChuff + 1 }
  if s.curChuff ≥ NUM_CHUFFS then
    { s with curChuff := 0, inChuffing := 0 }
  else s

/-- `startChuffing()` (lines 622-627). -/
def startChuffing (s : TrainState) : TrainState :=
  chuffNextChuff { s with inChuffing := 1, curChuff := 0, chuffDelay := CHUFF_DELAY }

/-! ### Announcement player (lines 676-714) -/

/-- `stationAnnouncement()` (lines 683-714): enqueues a fixed word sequence to
Talkie and blocks until it drains, entirely within the calling tick. It reads
or writes none of the modelled state (no activity flag, no pixel write), so on
the modelled state it is the identity. -/
def stationAnnouncement (s : TrainState) : TrainState := s

/-! ### Lighting animator (lines 719-756) -/

/-- The pseudo-random draws one `trainLights()` frame can consume, one field
per `random(k)` call site (the `delay(10 + random(90))` draw is a real-time
pause and touches no modelled state). -/
structure Rand where
  whichLight : Fin 3
  flash : Fin 10
  f2r : Fin 2
  f2g : Fin 2
  f2b : Fin 2
  r10 : Fin 10
  r5 : Fin 5
  r50 : Fin 50
  r20 : Fin 20
deriving DecidableEq, Repr

/-- The r, g, b computed by the branch of `trainLights()` (lines 727-751) for
the chosen zone. -/
def trainLightsColor (r : Rand) : Color :=
  if r.whichLight = 2 then
    let rr := 200 + r.r10.val
    let gg := rr - 120 + r.r5.val
    ⟨rr, gg, gg⟩
  else if r.whichLight = 0 then
    let gg := 95 + r.r5.val
    let rr := 195 + r.r10.val
    ⟨rr, gg, 0⟩
  else
    if r.flash = 1 then
      ⟨255 * r.f2r.val, 255 * r.f2g.val, 255 * r.f2b.val⟩
    else
      ⟨150 + r.r50.val, r.r20.val, 0⟩

/-- `trainLights()` (lines 719-756): one frame writes the one chosen zone
(the single `setPixelColor` call of line 753) and shows the strip. -/
def trainLights (s : TrainState) (r : Rand) : TrainState :=
  { s with zones := setPixelColor s.zones r.whichLight (trainLightsColor r) }

/-! ### The arbitration loop (lines 759-799) -/

/-- The sound the rotation selects, mirroring the branch chain of lines
780-788. -/
inductive SoundKind where
  | melody
  | announcement
  | chuffing
  | whistle
deriving DecidableEq, Repr

/-- Lines 780-788: `whichSound < 2` launches a melody, 2 the announcement,
3 the chuff sequence, anything else the whistle. -/
def rotationChoice (w : Nat) : SoundKind :=
  if w < 2 then SoundKind.melody
  else if w = 2 then SoundKind.announcement
  else if w = 3 then SoundKind.chuffing
  else SoundKind.whistle

/-- Lines 789-792: `whichSound++` wrapped back to 0 above 4. -/
def nextWhichSound (w : Nat) : Nat :=
  if w + 1 > 4 then 0 else w + 1

/-- The launch block of lines 777-793: start the sound the rotation selects,
then advance the rotation index. -/
def launchNextSound (s : TrainState) : TrainState :=
  let s :=
    match rotationChoice s.whichSound with
    | SoundKind.melody => startMelody s
    | SoundKind.announcement => stationAnnouncement s
    | SoundKind.chuffing => startChuffing s
    | SoundKind.whistle => startWhistle s
  { s with whichSound := nextWhichSound s.whichSound }

/-- Lines 794-797: the counter increment of an idle tick, wrapped to 0 once
it passes 32000. -/
def idleTick (c : Nat) : Nat :=
  let c := c + 1
  if c > 32000 then 0 else c

/-- The tail of `loop()` (lines 773-797) reached when no melody or chuff is
mid-stream: step the whistle if one is active (this branch, unlike the melody
and chuff branches, does not return), flicker the lights, launch the next
sound once the counter hits the idle threshold, and advance the counter. -/
def idleStep (s : TrainState) (r : Rand) : TrainState :=
  let s := if s.inWhistle = 1 then nextWhistle s else s
  let s := trainLights s r
  let s := if s.counter % FLICKERS_PER_SOUND = 0 then launchNextSound s else s
  { s with counter := idleTick s.counter }

/-- The oracle inputs one `loop()` call can consume: whether `kDelay` is seen
expired by `updateControl` during this call, and the lighting animator's
random draws. -/
structure TickInput where
  expire : Bool
  rand : Rand
deriving DecidableEq, Repr

/-- One call of `loop()` (lines 759-799). While `inMozzi == 1` the call only
runs `audioHook()`; its `updateControl` callback (lines 633-651) clears
`inMozzi` once `kDelay.ready()` fires, which the oracle decides. Otherwise an
active melody or chuff is stepped and the call returns; else the idle tail
runs (a mid-stream whistle steps and then falls through to it). -/
def tick (s : TrainState) (i : TickInput) : TrainState :=
  if s.inMozzi = 1 then
    if i.expire then { s with inMozzi := 0 } else s
  else
    if s.inMelody = 1 then playNextNoteInMelody s
    else if s.inChuffing = 1 then chuffNextChuff s
    else idleStep s i.rand

/-- `setup()` (lines 461-490): lights cut to black, oscillators configured,
`inMozzi = 0`, then the unconditional first melody is launched and
`whichSound` advances to 1; `loop()`'s static counter starts at 1. -/
def initTrainState : TrainState :=
  let s : TrainState := {
    inMozzi := 0, mozziMode := MOZZI_CHUFF,
    inMelody := 0, curMelodyNote := 0, whichMelody := 0,
    inChuffing := 0, curChuff := 0, chuffDelay := CHUFF_DELAY,
    inWhistle := 0, curWhistle := WHISTLE_INITIAL,
    whichSound := 0, counter := 1,
    aSinFreq := 440, aSquareFreq := WHISTLE_A, bSquareFreq := WHISTLE_B,
    cSquareFreq := WHISTLE_C, dSquareFreq := WHISTLE_D,
    kDelayDur := 0, kEnvAttack := 0, kEnvDecay := 0,
    zones := ⟨⟨0, 0, 0⟩, ⟨0, 0, 0⟩, ⟨0, 0, 0⟩⟩ }
  let s := startMelody s
  { s with whichSound := s.whichSound + 1 }

/-- The states the control loop can be in: the state `setup()` leaves, closed
under `tick` with any oracle input. -/
inductive Reachable : TrainState → Prop
  | init : Reachable initTrainState
  | step {s : TrainState} (h : Reachable s) (i : TickInput) : Reachable (tick s i)

end HoggyTrain
namespace HoggyTrain

/-! ### Projection lemmas: which fields each operation can touch -/

@[simp] lemma playNextNoteInMelody_inChuffing (s : TrainState) :
    (playNextNoteInMelody s).inChuffing = s.inChuffing := by
  unfold playNextNoteInMelody playNote
  dsimp only
  split <;> split <;> rfl

@[simp] lemma playNextNoteInMelody_inWhistle (s : TrainState) :
    (playNextNoteInMelody s).inWhistle = s.inWhistle := by
  unfold playNextNoteInMelody playNote
  dsimp only
  split <;> split <;> rfl

@[simp] lemma playNextNoteInMelody_curWhistle (s : TrainState) :
    (playNextNoteInMelody s).curWhistle = s.curWhistle := by
  unfold playNextNoteInMelody playNote
  dsimp only
  split <;> split <;> rfl

@[simp] lemma playNextNoteInMelody_counter (s : TrainState) :
    (playNextNoteInMelody s).counter = s.counter := by
  unfold playNextNoteInMelody playNote
  dsimp only
  split <;> split <;> rfl

@[simp] lemma playNextNoteInMelody_whichMelody (s : TrainState) :
    (playNextNoteInMelody s).whichMelody = s.whichMelody := by
  unfold playNextNoteInMelody playNote
  dsimp only
  split <;> split <;> rfl

lemma playNextNoteInMelody_inMelody (s : TrainState) :
    (playNextNoteInMelody s).inMelody = s.inMelody ∨
      (playNextNoteInMelody s).inMelody = 0 := by
  unfold playNextNoteInMelody playNote
  dsimp only
  split <;> split <;> first
    | exact Or.inl rfl
    | exact Or.inr rfl

@[simp] lemma chuffNextChuff_inMelody (s : TrainState) :
    (chuffNextChuff s).inMelody = s.inMelody := by
  unfold chuffNextChuff chuff
  dsimp only
  split <;> split <;> rfl

@[simp] lemma chuffNextChuff_inWhistle (s : TrainState) :
    (chuffNextChuff s).inWhistle = s.inWhistle := by
  unfold chuffNextChuff chuff
  dsimp only
  split <;> split <;> rfl

@[simp] lemma chuffNextChuff_curWhistle (s : TrainState) :
    (chuffNextChuff s).curWhistle = s.curWhistle := by
  unfold chuffNextChuff chuff
  dsimp only
  split <;> split <;> rfl

@[simp] lemma chuffNextChuff_counter (s : TrainState) :
    (chuffNextChuff s).counter = s.counter := by
  unfold chuffNextChuff chuff
  dsimp only
  split <;> split <;> rfl

lemma chuffNextChuff_inChuffing (s : TrainState) :
    (chuffNextChuff s).inChuffing = s.inChuffing ∨
      (chuffNextChuff s).inChuffing = 0 := by
  unfold chuffNextChuff chuff
  dsimp only
  split <;> split <;> first
    | exact Or.inl rfl
    | exact Or.inr rfl

@[simp] lemma whistle_inMelody (s : TrainState) (w : Nat) :
    (whistle s w).inMelody = s.inMelody := by
  unfold whistle
  dsimp only
  split <;> [rfl; split <;> rfl]

@[simp] lemma whistle_inChuffing (s : TrainState) (w : Nat) :
    (whistle s w).inChuffing = s.inChuffing := by
  unfold whistle
  dsimp only
  split <;> [rfl; split <;> rfl]

@[simp] lemma whistle_inWhistle (s : TrainState) (w : Nat) :
    (whistle s w).inWhistle = s.inWhistle := by
  unfold whistle
  dsimp only
  split <;> [rfl; split <;> rfl]

@[simp] lemma whistle_curWhistle (s : TrainState) (w : Nat) :
    (whistle s w).curWhistle = s.curWhistle := by
  unfold whistle
  dsimp only
  split <;> [rfl; split <;> rfl]

@[simp] lemma whistle_counter (s : TrainState) (w : Nat) :
    (whistle s w).counter = s.counter := by
  unfold whistle
  dsimp only
  split <;> [rfl; split <;> rfl]

lemma nextWhistle_curWhistle (s : TrainState) :
    (nextWhistle s).curWhistle =
      if s.curWhistle + 1 > WHISTLE_FADE then 0 else s.curWhistle + 1 := by
  unfold nextWhistle
  dsimp only
  simp only [whistle_curWhistle, whistle_inWhistle]
  split <;> rfl

lemma nextWhistle_inWhistle (s : TrainState) :
    (nextWhistle s).inWhistle =
      if s.curWhistle + 1 > WHISTLE_FADE then 0 else s.inWhistle := by
  unfold nextWhistle
  dsimp only
  simp only [whistle_curWhistle, whistle_inWhistle]
  split <;> rfl

@[simp] lemma nextWhistle_inMelody (s : TrainState) :
    (nextWhistle s).inMelody = s.inMelody := by
  unfold nextWhistle
  dsimp only
  split <;> simp

@[simp] lemma nextWhistle_inChuffing (s : TrainState) :
    (nextWhistle s).inChuffing = s.inChuffing := by
  unfold nextWhistle
  dsimp only
  split <;> simp

@[simp] lemma nextWhistle_counter (s : TrainState) :
    (nextWhistle s).counter = s.counter := by
  unfold nextWhistle
  dsimp only
  split <;> simp

@[simp] lemma trainLights_inMelody (s : TrainState) (r : Rand) :
    (trainLights s r).inMelody = s.inMelody := rfl

@[simp] lemma trainLights_inChuffing (s : TrainState) (r : Rand) :
    (trainLights s r).inChuffing = s.inChuffing := rfl

@[simp] lemma trainLights_inWhistle (s : TrainState) (r : Rand) :
    (trainLights s r).inWhistle = s.inWhistle := rfl

@[simp] lemma trainLights_curWhistle (s : TrainState) (r : Rand) :
    (trainLights s r).curWhistle = s.curWhistle := rfl

@[simp] lemma trainLights_counter (s : TrainState) (r : Rand) :
    (trainLights s r).counter = s.counter := rfl

@[simp] lemma trainLights_whichSound (s : TrainState) (r : Rand) :
    (trainLights s r).whichSound = s.whichSound := rfl


@[simp] lemma playNextNoteInMelody_whichSound (s : TrainState) :
    (playNextNoteInMelody s).whichSound = s.whichSound := by
  unfold playNextNoteInMelody playNote
  dsimp only
  split <;> split <;> rfl

@[simp] lemma chuffNextChuff_whichSound (s : TrainState) :
    (chuffNextChuff s).whichSound = s.whichSound := by
  unfold chuffNextChuff chuff
  dsimp only
  split <;> split <;> rfl

@[simp] lemma whistle_whichSound (s : TrainState) (w : Nat) :
    (whistle s w).whichSound = s.whichSound := by
  unfold whistle
  dsimp only
  split <;> [rfl; split <;> rfl]

@[simp] lemma nextWhistle_whichSound (s : TrainState) :
    (nextWhistle s).whichSound = s.whichSound := by
  unfold nextWhistle
  dsimp only
  split <;> simp

@[simp] lemma stationAnnouncement_eq (s : TrainState) : stationAnnouncement s = s := rfl

@[simp] lemma startMelody_inChuffing (s : TrainState) :
    (startMelody s).inChuffing = s.inChuffing := by
  unfold startMelody
  simp

@[simp] lemma startMelody_inWhistle (s : TrainState) :
    (startMelody s).inWhistle = s.inWhistle := by
  unfold startMelody
  simp

@[simp] lemma startMelody_curWhistle (s : TrainState) :
    (startMelody s).curWhistle = s.curWhistle := by
  unfold startMelody
  simp

@[simp] lemma startMelody_counter (s : TrainState) :
    (startMelody s).counter = s.counter := by
  unfold startMelody
  simp

@[simp] lemma startMelody_whichSound (s : TrainState) :
    (startMelody s).whichSound = s.whichSound := by
  unfold startMelody
  simp

lemma startMelody_inMelody (s : TrainState) :
    (startMelody s).inMelody = 1 ∨ (startMelody s).inMelody = 0 := by
  unfold startMelody
  rcases playNextNoteInMelody_inMelody
      { s with inMelody := 1, curMelodyNote := 0,
               whichMelody := if s.whichSound > 0 then 1 else s.whichSound } with h | h
  · exact Or.inl h
  · exact Or.inr h

@[simp] lemma startChuffing_inMelody (s : TrainState) :
    (startChuffing s).inMelody = s.inMelody := by
  unfold startChuffing
  simp

@[simp] lemma startChuffing_inWhistle (s : TrainState) :
    (startChuffing s).inWhistle = s.inWhistle := by
  unfold startChuffing
  simp

@[simp] lemma startChuffing_curWhistle (s : TrainState) :
    (startChuffing s).curWhistle = s.curWhistle := by
  unfold startChuffing
  simp

@[simp] lemma startChuffing_counter (s : TrainState) :
    (startChuffing s).counter = s.counter := by
  unfold startChuffing
  simp

@[simp] lemma startChuffing_whichSound (s : TrainState) :
    (startChuffing s).whichSound = s.whichSound := by
  unfold startChuffing
  simp

lemma startChuffing_inChuffing (s : TrainState) :
    (startChuffing s).inChuffing = 1 ∨ (startChuffing s).inChuffing = 0 := by
  unfold startChuffing
  rcases chuffNextChuff_inChuffing
      { s with inChuffing := 1, curChuff := 0, chuffDelay := CHUFF_DELAY } with h | h
  · exact Or.inl h
  · exact Or.inr h

@[simp] lemma startWhistle_inWhistle (s : TrainState) :
    (startWhistle s).inWhistle = 1 := rfl

@[simp] lemma startWhistle_curWhistle (s : TrainState) :
    (startWhistle s).curWhistle = 1 := rfl

@[simp] lemma startWhistle_inMelody (s : TrainState) :
    (startWhistle s).inMelody = s.inMelody := rfl

@[simp] lemma startWhistle_inChuffing (s : TrainState) :
    (startWhistle s).inChuffing = s.inChuffing := rfl

@[simp] lemma startWhistle_counter (s : TrainState) :
    (startWhistle s).counter = s.counter := rfl

@[simp] lemma startWhistle_whichSound (s : TrainState) :
    (startWhistle s).whichSound = s.whichSound := rfl

lemma launchNextSound_counter (s : TrainState) :
    (launchNextSound s).counter = s.counter := by
  unfold launchNextSound
  cases h : rotationChoice s.whichSound <;> simp [h]

lemma launchNextSound_whichSound (s : TrainState) :
    (launchNextSound s).whichSound = nextWhichSound s.whichSound := by
  unfold launchNextSound
  cases h : rotationChoice s.whichSound <;> simp [h]


/-! ### The scheduler invariant -/

/-- The inductive invariant of the control loop: the three stepped
sub-machines are pairwise exclusive, the idle counter stays within its
ceiling, and a mid-stream whistle pins the counter to the two residues the
launch tick set up (which is what keeps the fall-through whistle branch from
ever coinciding with a launch tick). -/
def Inv (s : TrainState) : Prop :=
  (s.inMelody = 1 → s.inChuffing ≠ 1 ∧ s.inWhistle ≠ 1) ∧
  (s.inChuffing = 1 → s.inWhistle ≠ 1) ∧
  s.counter ≤ 32000 ∧
  (s.inWhistle = 1 →
    (s.curWhistle = 1 ∧ s.counter % 300 = 1) ∨
    (s.curWhistle = 2 ∧ s.counter % 300 = 2))

lemma idleTick_eq (c : Nat) : idleTick c = if c + 1 > 32000 then 0 else c + 1 := rfl

lemma inv_init : Inv initTrainState := by
  refine ⟨?_, ?_, ?_, ?_⟩ <;> decide

lemma inv_idleStep (s : TrainState) (r : Rand)
    (hm : s.inMelody ≠ 1) (hc : s.inChuffing ≠ 1) (h : Inv s) :
    Inv (idleStep s r) := by
  obtain ⟨-, -, hcnt, hwh⟩ := h
  unfold idleStep
  dsimp only
  -- the state after the optional whistle step and the lighting frame
  set t := trainLights (if s.inWhistle = 1 then nextWhistle s else s) r with ht
  have tm : t.inMelody ≠ 1 := by
    rw [ht]
    split <;> simpa
  have tc : t.inChuffing ≠ 1 := by
    rw [ht]
    split <;> simpa
  have tcnt : t.counter = s.counter := by
    rw [ht]
    split <;> simp
  have tw : t.inWhistle = 1 → t.curWhistle = 2 ∧ t.counter % 300 = 1 := by
    rw [ht]
    split
    · rename_i hw
      intro hw2
      rcases hwh hw with ⟨h1, h2⟩ | ⟨h1, h2⟩
      · refine ⟨?_, ?_⟩
        · simp [nextWhistle_curWhistle, h1, WHISTLE_FADE]
        · simpa using h2
      · exfalso
        simp only [trainLights_inWhistle, nextWhistle_inWhistle, h1] at hw2
        norm_num [WHISTLE_FADE] at hw2
    · rename_i hw
      intro hw2
      simp only [trainLights_inWhistle] at hw2
      exact absurd hw2 hw
  -- the state after the possible launch
  set u := if t.counter % FLICKERS_PER_SOUND = 0 then launchNextSound t else t with hu
  have key :
      (u.inMelody = 1 → u.inChuffing ≠ 1 ∧ u.inWhistle ≠ 1) ∧
      (u.inChuffing = 1 → u.inWhistle ≠ 1) ∧
      u.counter = s.counter ∧
      (u.inWhistle = 1 →
        (u.curWhistle = 1 ∧ u.counter % 300 = 0) ∨
        (u.curWhistle = 2 ∧ u.counter % 300 = 1)) := by
    rw [hu]
    split
    · rename_i hgate
      have tw0 : t.inWhistle ≠ 1 := by
        intro hw
        have := (tw hw).2
        rw [show FLICKERS_PER_SOUND = 300 from rfl] at hgate
        omega
      unfold launchNextSound
      cases hrc : rotationChoice t.whichSound <;> dsimp only
      · -- melody launched
        rcases startMelody_inMelody t with h1 | h1 <;>
          simp_all [show FLICKERS_PER_SOUND = 300 from rfl]
      · -- announcement: identity on the modelled state
        simp_all [show FLICKERS_PER_SOUND = 300 from rfl]
      · -- chuffing launched
        rcases startChuffing_inChuffing t with h1 | h1 <;>
          simp_all [show FLICKERS_PER_SOUND = 300 from rfl]
      · -- whistle launched
        simp_all [show FLICKERS_PER_SOUND = 300 from rfl]
    · refine ⟨fun h1 => absurd h1 tm, fun h1 => absurd h1 tc, tcnt, ?_⟩
      intro hw
      exact Or.inr (tw hw)
  obtain ⟨um, uc, ucnt, uw⟩ := key
  have ub : u.counter ≤ 32000 := by
    rw [ucnt]
    exact hcnt
  refine ⟨um, uc, ?_, ?_⟩
  · rw [idleTick_eq]
    split <;> dsimp only <;> omega
  · intro hw
    rcases uw hw with ⟨h1, h2⟩ | ⟨h1, h2⟩
    · refine Or.inl ⟨h1, ?_⟩
      rw [idleTick_eq]
      split <;> dsimp only <;> omega
    · refine Or.inr ⟨h1, ?_⟩
      rw [idleTick_eq]
      split <;> dsimp only <;> omega

lemma inv_tick (s : TrainState) (i : TickInput) (h : Inv s) : Inv (tick s i) := by
  obtain ⟨hme, hch, hcnt, hwh⟩ := h
  unfold tick
  split
  · split
    · exact ⟨hme, hch, hcnt, hwh⟩
    · exact ⟨hme, hch, hcnt, hwh⟩
  · split
    · rename_i hm
      rcases playNextNoteInMelody_inMelody s with h1 | h1 <;>
        refine ⟨?_, ?_, ?_, ?_⟩ <;> simp_all
    · split
      · rename_i hm hc
        rcases chuffNextChuff_inChuffing s with h1 | h1 <;>
          refine ⟨?_, ?_, ?_, ?_⟩ <;> simp_all
      · rename_i hm hc
        exact inv_idleStep s i.rand hm hc ⟨hme, hch, hcnt, hwh⟩

lemma reachable_inv (s : TrainState) (h : Reachable s) : Inv s := by
  induction h with
  | init => exact inv_init
  | step h i ih => exact inv_tick _ i ih


/-! ### Claim C1: mutual exclusion and the busy flag -/

/-- How many of the three stepped sub-machine activity flags are set
(the announcement runs to completion inside its own tick and has no flag). -/
def activeCount (s : TrainState) : Nat :=
  (if s.inMelody = 1 then 1 else 0) + (if s.inChuffing = 1 then 1 else 0) +
    (if s.inWhistle = 1 then 1 else 0)

/-- A fixed all-zero draw for concrete runs of the lighting animator. -/
def allZeroRand : Rand := ⟨0, 0, 0, 0, 0, 0, 0, 0, 0⟩

/-- Claim C1, amended: in every reachable state of the control loop at most
one of the stepped sound sub-machines (Melody, PulseSequence, ToneSequence)
is active; the Announcement completes within its own tick. (The second half
of the claim, busy iff exactly one active, is refuted separately.) -/
theorem mutual_exclusion_of_reachable (s : TrainState) (h : Reachable s) :
    activeCount s ≤ 1 := by
  obtain ⟨hme, hch, -, -⟩ := reachable_inv s h
  unfold activeCount
  split_ifs <;> simp_all

/-- Witness for C1: the startup state is reachable and satisfies the bound. -/
theorem mutual_exclusion_of_reachable_witness :
    activeCount initTrainState ≤ 1 :=
  mutual_exclusion_of_reachable initTrainState Reachable.init

/-- Claim C1, counterexample: one expired-delay tick after startup the melody
is still mid-stream (inMelody = 1) while the busy flag inMozzi has been
cleared by updateControl, so inMozzi = 1 is not equivalent to exactly one
sub-machine being active. -/
theorem busy_iff_active_fails :
    Reachable (tick initTrainState ⟨true, allZeroRand⟩) ∧
    ¬((tick initTrainState ⟨true, allZeroRand⟩).inMozzi = 1 ↔
        activeCount (tick initTrainState ⟨true, allZeroRand⟩) = 1) :=
  ⟨Reachable.step Reachable.init ⟨true, allZeroRand⟩, by decide⟩

/-! ### Claim C3: the whistle stage trace -/

/-- The stages `nextWhistle` hands to `whistle` from a given state on, while
the whistle is active (fuelled; four units of fuel suffice). -/
def whistleStages : TrainState → Nat → List Nat
  | _, 0 => []
  | s, fuel + 1 =>
    if s.inWhistle = 1 then s.curWhistle :: whistleStages (nextWhistle s) fuel
    else []

/-- Claim C3, counterexample: from a launch, the stages actually played are
not Initial, Tritone, Fade, Dud: the Dud (silent) stage is never entered. -/
theorem whistle_stage_trace_cex :
    whistleStages
        { initTrainState with inWhistle := 1, curWhistle := 0 } 8 ≠
      [WHISTLE_INITIAL, WHISTLE_TRITONE, WHISTLE_FADE, WHISTLE_DUD] := by
  decide

/-- Claim C3, amended: from any launch of the whistle (which resets the stage
counter to 0), the stages played before the active flag falls are exactly
Initial, Tritone (the combined chord), Fade, in that order, with no repeats
and no skips; the active flag and stage counter are both 0 again after the
third step, so the same trace recurs on every relaunch. -/
theorem whistle_stage_trace (s : TrainState) (n : Nat) :
    whistleStages { s with inWhistle := 1, curWhistle := 0 } (n + 4) =
      [WHISTLE_INITIAL, WHISTLE_TRITONE, WHISTLE_FADE] ∧
    (nextWhistle^[3] { s with inWhistle := 1, curWhistle := 0 }).inWhistle = 0 ∧
    (nextWhistle^[3] { s with inWhistle := 1, curWhistle := 0 }).curWhistle = 0 ∧
    startWhistle s = nextWhistle { s with inWhistle := 1, curWhistle := 0 } :=
  ⟨rfl, rfl, rfl, rfl⟩

/-! ### Claim C4: the rotation order -/

/-- Claim C4, counterexample: starting at rotation index 0, the five
consecutive launches are not Melody, Announcement, PulseSequence,
ToneSequence, Melody. -/
theorem rotation_from_zero_cex :
    ((List.range 5).map fun k => rotationChoice (nextWhichSound^[k] 0)) ≠
      [SoundKind.melody, SoundKind.announcement, SoundKind.chuffing,
       SoundKind.whistle, SoundKind.melody] := by
  decide

/-- Claim C4, amended: starting at rotation index 0, the five consecutive
launches visit Melody, Melody, Announcement, PulseSequence, ToneSequence
(indices 0 and 1 both select a melody, with the variant picked by the
index), and the rotation index returns to its start after five launches, so
the order repeats cyclically; the launch block advances the index exactly by
`nextWhichSound`. -/
theorem rotation_from_zero :
    ((List.range 5).map fun k => rotationChoice (nextWhichSound^[k] 0)) =
      [SoundKind.melody, SoundKind.melody, SoundKind.announcement,
       SoundKind.chuffing, SoundKind.whistle] ∧
    (∀ w : Nat, w ≤ 4 → nextWhichSound^[5] w = w) ∧
    (∀ s : TrainState,
      (launchNextSound s).whichSound = nextWhichSound s.whichSound) :=
  ⟨by decide, by decide, launchNextSound_whichSound⟩

/-! ### Claim C5: idle-period gating -/

lemma idleTick_iterate (k c : Nat) (h : c + k ≤ 32000) :
    idleTick^[k] c = c + k := by
  induction k generalizing c with
  | zero => simp
  | succ k ih =>
    rw [Function.iterate_succ_apply]
    have h1 : idleTick c = c + 1 := by
      rw [idleTick_eq]
      split <;> omega
    rw [h1, ih (c + 1) (by omega)]
    omega

set_option maxRecDepth 4000 in
/-- Claim C5, amended: after a launch at counter value c (the gate fires when
c is a multiple of the threshold 300) that leaves room before the 32000
ceiling, no launch fires during the next 299 idle ticks and one fires exactly
on the 300th; but after the launch at c = 31800 the wrap resets the counter
to 0, which itself satisfies the gate, so the next launch fires on the 201st
idle tick; the startup melody is launched unconditionally (it is already
mid-stream at counter 1, before the gate can ever have fired). -/
theorem idle_gating (c k : Nat) (hc : c % FLICKERS_PER_SOUND = 0)
    (hceil : c + 300 ≤ 32000) (hk1 : 1 ≤ k) (hk2 : k ≤ 299) :
    (idleTick^[k] c) % FLICKERS_PER_SOUND ≠ 0 ∧
    (idleTick^[300] c) % FLICKERS_PER_SOUND = 0 ∧
    (idleTick^[201] 31800) % FLICKERS_PER_SOUND = 0 ∧
    initTrainState.inMelody = 1 ∧ initTrainState.counter = 1 := by
  rw [show FLICKERS_PER_SOUND = 300 from rfl] at hc ⊢
  refine ⟨?_, ?_, by decide, rfl, rfl⟩
  · rw [idleTick_iterate k c (by omega)]
    omega
  · rw [idleTick_iterate 300 c (by omega)]
    omega

set_option maxRecDepth 4000 in
/-- Witness for C5 at c = 0, k = 1. -/
theorem idle_gating_witness :
    (idleTick^[1] 0) % FLICKERS_PER_SOUND ≠ 0 ∧
    (idleTick^[300] 0) % FLICKERS_PER_SOUND = 0 ∧
    (idleTick^[201] 31800) % FLICKERS_PER_SOUND = 0 ∧
    initTrainState.inMelody = 1 ∧ initTrainState.counter = 1 :=
  idle_gating 0 1 (by decide) (by decide) (by decide) (by decide)

set_option maxRecDepth 4000 in
/-- Claim C5, counterexample: the launch at counter 31800 is followed by the
next gate firing on the 201st idle tick, inside the 1..299 window in which
the claim says no launch can occur (the counter ceiling 32000 is not a
multiple of the 300-tick threshold). -/
theorem idle_gating_cex :
    31800 % FLICKERS_PER_SOUND = 0 ∧
    (idleTick^[201] 31800) % FLICKERS_PER_SOUND = 0 ∧
    201 < FLICKERS_PER_SOUND := by
  decide


/-! ### Claim C6: the chuff delay schedule -/

/-- The fields of the pulse sequencer that `chuffNextChuff` drives. -/
structure ChuffCore where
  curChuff : Nat
  chuffDelay : Int
  inChuffing : Nat
deriving DecidableEq, Repr

def chuffProj (s : TrainState) : ChuffCore :=
  ⟨s.curChuff, s.chuffDelay, s.inChuffing⟩

/-- `chuffNextChuff` restricted to the fields it drives. -/
def chuffCoreStep (m : ChuffCore) : ChuffCore :=
  let m := { m with chuffDelay := m.chuffDelay - 150 }
  let m := if m.chuffDelay < 50 then { m with chuffDelay := 50 } else m
  let m := { m with curChuff := m.curChuff + 1 }
  if m.curChuff ≥ NUM_CHUFFS then { m with curChuff := 0, inChuffing := 0 }
  else m

lemma chuffProj_step (s : TrainState) :
    chuffProj (chuffNextChuff s) = chuffCoreStep (chuffProj s) := by
  unfold chuffNextChuff chuff chuffCoreStep chuffProj
  dsimp only
  split <;> split <;> rfl

lemma chuffProj_iterate (k : Nat) (s : TrainState) :
    chuffProj (chuffNextChuff^[k] s) = chuffCoreStep^[k] (chuffProj s) := by
  induction k generalizing s with
  | zero => rfl
  | succ k ih =>
    rw [Function.iterate_succ_apply, Function.iterate_succ_apply,
      ih (chuffNextChuff s), chuffProj_step]

/-- Claim C6: launching the pulse sequencer resets the delay to 1100; after k
pulses (the launch plays the first) the inter-pulse delay is
max(50, 1100 - 150k), the step having decreased it by 150 and clamped it at
the floor 50 on every pulse; `startChuffing` is exactly the reset followed by
the first pulse. -/
theorem chuff_delay_schedule (s : TrainState) (k : Nat) (hk : k ≤ NUM_CHUFFS) :
    (chuffNextChuff^[k]
        { s with inChuffing := 1, curChuff := 0,
                 chuffDelay := CHUFF_DELAY }).chuffDelay =
      max 50 (1100 - 150 * (k : Int)) ∧
    startChuffing s =
      chuffNextChuff
        { s with inChuffing := 1, curChuff := 0, chuffDelay := CHUFF_DELAY } := by
  refine ⟨?_, rfl⟩
  have h1 :
      (chuffNextChuff^[k]
          { s with inChuffing := 1, curChuff := 0,
                   chuffDelay := CHUFF_DELAY }).chuffDelay =
        (chuffCoreStep^[k] (⟨0, CHUFF_DELAY, 1⟩ : ChuffCore)).chuffDelay :=
    congrArg ChuffCore.chuffDelay
      (chuffProj_iterate k
        { s with inChuffing := 1, curChuff := 0, chuffDelay := CHUFF_DELAY })
  rw [h1]
  have h2 : ∀ j, j ≤ NUM_CHUFFS →
      (chuffCoreStep^[j] (⟨0, CHUFF_DELAY, 1⟩ : ChuffCore)).chuffDelay =
        max 50 (1100 - 150 * (j : Int)) := by decide
  exact h2 k hk

/-- Witness for C6 at k = 7: the delay is clamped at exactly 50. -/
theorem chuff_delay_schedule_witness :
    (chuffNextChuff^[7]
        { initTrainState with inChuffing := 1, curChuff := 0,
                              chuffDelay := CHUFF_DELAY }).chuffDelay =
      max 50 (1100 - 150 * ((7 : Nat) : Int)) ∧
    startChuffing initTrainState =
      chuffNextChuff
        { initTrainState with inChuffing := 1, curChuff := 0,
                              chuffDelay := CHUFF_DELAY } :=
  chuff_delay_schedule initTrainState 7 (by decide)

/-! ### Claims C7 and C8: the melody player -/

/-- The fields of the melody player that `playNextNoteInMelody` drives. -/
structure MelodyCore where
  whichMelody : Nat
  curMelodyNote : Nat
  inMelody : Nat
deriving DecidableEq, Repr

def melodyProj (s : TrainState) : MelodyCore :=
  ⟨s.whichMelody, s.curMelodyNote, s.inMelody⟩

/-- `playNextNoteInMelody` restricted to the fields it drives. -/
def melodyCoreStep (m : MelodyCore) : MelodyCore :=
  let melodyLength : Nat :=
    if m.whichMelody = 0 then MELODY_LENGTH else MELODY2_LENGTH
  let m := { m with curMelodyNote := m.curMelodyNote + 1 }
  if m.curMelodyNote ≥ melodyLength then { m with curMelodyNote := 0, inMelody := 0 }
  else m

lemma melodyProj_step (s : TrainState) :
    melodyProj (playNextNoteInMelody s) = melodyCoreStep (melodyProj s) := by
  unfold playNextNoteInMelody playNote melodyCoreStep melodyProj
  dsimp only
  split <;> split <;> rfl

lemma melodyProj_iterate (k : Nat) (s : TrainState) :
    melodyProj (playNextNoteInMelody^[k] s) = melodyCoreStep^[k] (melodyProj s) := by
  induction k generalizing s with
  | zero => rfl
  | succ k ih =>
    rw [Function.iterate_succ_apply, Function.iterate_succ_apply,
      ih (playNextNoteInMelody s), melodyProj_step]

/-- The length of the note table the melody player walks, by table choice. -/
def melodyLengthFor (w : Nat) : Nat :=
  if w = 0 then MELODY_LENGTH else MELODY2_LENGTH

set_option maxRecDepth 12000 in
/-- Claim C7: from a freshly launched melody state (note index 0, active, one
of the two tables chosen), the active flag is still 1 after every step
k < L and falls to 0 exactly on the L-th step, where L is the chosen table's
length. -/
theorem melody_active_until_length (s : TrainState) (k : Nat)
    (hw : s.whichMelody ≤ 1) (h0 : s.curMelodyNote = 0) (h1 : s.inMelody = 1)
    (hk : k < melodyLengthFor s.whichMelody) :
    (playNextNoteInMelody^[k] s).inMelody = 1 ∧
    (playNextNoteInMelody^[melodyLengthFor s.whichMelody] s).inMelody = 0 := by
  have hproj : melodyProj s = ⟨s.whichMelody, 0, 1⟩ := by
    unfold melodyProj
    rw [h0, h1]
  have key : ∀ w, w ≤ 1 → ∀ j, j ≤ MELODY2_LENGTH →
      ((j < melodyLengthFor w →
        (melodyCoreStep^[j] (⟨w, 0, 1⟩ : MelodyCore)).inMelody = 1) ∧
       (melodyCoreStep^[melodyLengthFor w] (⟨w, 0, 1⟩ : MelodyCore)).inMelody = 0) := by
    decide
  have hlen : melodyLengthFor s.whichMelody ≤ MELODY2_LENGTH := by
    unfold melodyLengthFor MELODY_LENGTH MELODY2_LENGTH
    split <;> omega
  have e1 : (playNextNoteInMelody^[k] s).inMelody =
      (melodyCoreStep^[k] (⟨s.whichMelody, 0, 1⟩ : MelodyCore)).inMelody := by
    have h2 := melodyProj_iterate k s
    rw [hproj] at h2
    exact congrArg MelodyCore.inMelody h2
  have e2 : (playNextNoteInMelody^[melodyLengthFor s.whichMelody] s).inMelody =
      (melodyCoreStep^[melodyLengthFor s.whichMelody]
        (⟨s.whichMelody, 0, 1⟩ : MelodyCore)).inMelody := by
    have h2 := melodyProj_iterate (melodyLengthFor s.whichMelody) s
    rw [hproj] at h2
    exact congrArg MelodyCore.inMelody h2
  refine ⟨?_, ?_⟩
  · rw [e1]
    exact (key s.whichMelody hw k (by omega)).1 hk
  · rw [e2]
    exact (key s.whichMelody hw 0 (by omega)).2

/-- Witness for C7: melody A (length 30), checked after step 5 and step 30. -/
theorem melody_active_until_length_witness :
    (playNextNoteInMelody^[5]
        { initTrainState with whichMelody := 0, curMelodyNote := 0,
                              inMelody := 1 }).inMelody = 1 ∧
    (playNextNoteInMelody^[melodyLengthFor
        ({ initTrainState with whichMelody := 0, curMelodyNote := 0,
                               inMelody := 1 } : TrainState).whichMelody]
        { initTrainState with whichMelody := 0, curMelodyNote := 0,
                              inMelody := 1 }).inMelody = 0 :=
  melody_active_until_length
    { initTrainState with whichMelody := 0, curMelodyNote := 0, inMelody := 1 }
    5 (by decide) rfl rfl (by decide)

lemma playNextNoteInMelody_aSinFreq (s : TrainState) :
    (playNextNoteInMelody s).aSinFreq =
      (if s.whichMelody = 0 then melody.getD s.curMelodyNote 0
       else melody2.getD s.curMelodyNote 0) := by
  unfold playNextNoteInMelody playNote
  dsimp only
  split <;> split <;> rfl

lemma playNextNoteInMelody_kDelayDur (s : TrainState) :
    (playNextNoteInMelody s).kDelayDur =
      noteDurationMs
        (if s.whichMelody = 0 then melodyDurations.getD s.curMelodyNote 0
         else melody2Durations.getD s.curMelodyNote 0) := by
  unfold playNextNoteInMelody playNote
  dsimp only
  split <;> split <;> rfl

lemma melodyDurations_nonzero :
    ∀ i, i < MELODY_LENGTH → melodyDurations.getD i 0 ≠ 0 := by decide

lemma melody2Durations_nonzero :
    ∀ i, i < MELODY2_LENGTH → melody2Durations.getD i 0 ≠ 0 := by decide

/-- Claim C8: a melody step never re-evaluates the table choice, points the
sine oscillator at the current note's table pitch, and runs it for exactly
the converted length: `1024 / d` for a positive duration code d and
`(1024 * 3) / (|d| * 2)` for a negative (dotted) one. For in-range indices
the stored codes are never zero, so the zero-replacement of lines 514-516 is
inert here and the played length is exactly the claimed formula. -/
theorem melody_note_conversion (s : TrainState)
    (_hw : s.whichMelody ≤ 1)
    (hi : s.curMelodyNote < melodyLengthFor s.whichMelody) :
    (playNextNoteInMelody s).whichMelody = s.whichMelody ∧
    (playNextNoteInMelody s).aSinFreq =
      (if s.whichMelody = 0 then melody.getD s.curMelodyNote 0
       else melody2.getD s.curMelodyNote 0) ∧
    (playNextNoteInMelody s).kDelayDur =
      (if (if s.whichMelody = 0 then melodyDurations.getD s.curMelodyNote 0
           else melody2Durations.getD s.curMelodyNote 0) > 0 then
        1024 / (if s.whichMelody = 0 then melodyDurations.getD s.curMelodyNote 0
                else melody2Durations.getD s.curMelodyNote 0)
      else
        (1024 * 3) /
          (-(if s.whichMelody = 0 then melodyDurations.getD s.curMelodyNote 0
             else melody2Durations.getD s.curMelodyNote 0) * 2)) := by
  refine ⟨playNextNoteInMelody_whichMelody s, playNextNoteInMelody_aSinFreq s, ?_⟩
  rw [playNextNoteInMelody_kDelayDur]
  have hd : (if s.whichMelody = 0 then melodyDurations.getD s.curMelodyNote 0
             else melody2Durations.getD s.curMelodyNote 0) ≠ 0 := by
    unfold melodyLengthFor at hi
    split
    · rename_i h
      rw [if_pos h] at hi
      exact melodyDurations_nonzero s.curMelodyNote hi
    · rename_i h
      rw [if_neg h] at hi
      exact melody2Durations_nonzero s.curMelodyNote hi
  unfold noteDurationMs fixZeroDuration
  rw [if_neg hd]

/-- Witness for C8 at the first note of melody A (duration code 4, pitch B4):
the played length is 1024 / 4 = 256 ms. -/
theorem melody_note_conversion_witness :
    (playNextNoteInMelody
        { initTrainState with whichMelody := 0, curMelodyNote := 0,
                              inMelody := 1 }).whichMelody =
      ({ initTrainState with whichMelody := 0, curMelodyNote := 0,
                             inMelody := 1 } : TrainState).whichMelody ∧
    (playNextNoteInMelody
        { initTrainState with whichMelody := 0, curMelodyNote := 0,
                              inMelody := 1 }).aSinFreq = NOTE_B4 ∧
    (playNextNoteInMelody
        { initTrainState with whichMelody := 0, curMelodyNote := 0,
                              inMelody := 1 }).kDelayDur = 256 :=
  melody_note_conversion
    { initTrainState with whichMelody := 0, curMelodyNote := 0, inMelody := 1 }
    (by decide) (by decide)

/-! ### Claim C10: the zero-duration guard -/

/-- Claim C10: the melody player replaces a zero duration code by 1 before
converting, so the fixed code is never zero, the divisor of the dotted-note
branch is nonzero as well, and the conversion of a zero code yields
1024 / 1 = 1024; hence neither division in `noteDurationMs` ever divides by
zero. -/
theorem zero_duration_guard (d : Int) :
    fixZeroDuration 0 = 1 ∧
    fixZeroDuration d ≠ 0 ∧
    (fixZeroDuration d ≤ 0 → -fixZeroDuration d * 2 ≠ 0) ∧
    noteDurationMs 0 = 1024 := by
  refine ⟨rfl, ?_, ?_, rfl⟩
  · unfold fixZeroDuration
    split <;> omega
  · unfold fixZeroDuration
    split <;> intro h <;> omega

/-! ### Claim C9: per-zone writes of the lighting animator -/

lemma zoneColor_setPixelColor_ne (z : Zones) (m n : Fin 3) (c : Color)
    (h : n ≠ m) : zoneColor (setPixelColor z m c) n = zoneColor z n := by
  fin_cases m <;> fin_cases n <;> first
    | rfl
    | exact absurd rfl h

/-- Claim C9: one lighting frame writes exactly the randomly selected zone
(the single `setPixelColor` call with `whichLight`), and the two zones not
selected keep their previous color bit for bit. -/
theorem lights_write_one_zone (s : TrainState) (r : Rand) :
    (trainLights s r).zones =
      setPixelColor s.zones r.whichLight (trainLightsColor r) ∧
    ∀ n : Fin 3, n ≠ r.whichLight →
      zoneColor (trainLights s r).zones n = zoneColor s.zones n :=
  ⟨rfl, fun n hn =>
    zoneColor_setPixelColor_ne s.zones r.whichLight n (trainLightsColor r) hn⟩


/-! ### Claim C2: lighting freeze during sound

The freeze does hold against the Mozzi busy flag: a tick entered with
`inMozzi == 1` only runs `audioHook()` and leaves every pixel untouched. -/

lemma zones_frozen_while_inMozzi (s : TrainState) (i : TickInput)
    (h : s.inMozzi = 1) : (tick s i).zones = s.zones := by
  unfold tick
  rw [if_pos h]
  split <;> rfl

/-- A deterministic driver for concrete executions of the loop: every tick
sees an expired Mozzi delay and the all-zero lighting draw. -/
def runPolicy : Nat → TrainState → TrainState
  | 0, s => s
  | n + 1, s => runPolicy n (tick s ⟨true, allZeroRand⟩)

lemma reachable_runPolicy (n : Nat) (s : TrainState) (h : Reachable s) :
    Reachable (runPolicy n s) := by
  induction n generalizing s with
  | zero => exact h
  | succ n ih => exact ih _ (Reachable.step h ⟨true, allZeroRand⟩)

/-- The driver's state after 250 ticks (mid second melody). -/
def runA : TrainState :=
  { inMozzi := 0, mozziMode := 2, inMelody := 0, curMelodyNote := 0,
    whichMelody := 0, inChuffing := 0, curChuff := 0, chuffDelay := 1100,
    inWhistle := 0, curWhistle := 0, whichSound := 1, counter := 192,
    aSinFreq := 659, aSquareFreq := 988, bSquareFreq := 784,
    cSquareFreq := 784, dSquareFreq := 587, kDelayDur := 1536,
    kEnvAttack := 0, kEnvDecay := 0,
    zones := ⟨⟨195, 95, 0⟩, ⟨0, 0, 0⟩, ⟨0, 0, 0⟩⟩ }

/-- After 500 ticks. -/
def runB : TrainState :=
  { runA with whichMelody := 1, whichSound := 2, counter := 357,
              aSinFreq := 880 }

/-- After 750 ticks. -/
def runC : TrainState :=
  { runB with whichSound := 3, counter := 607 }

/-- After 1000 ticks. -/
def runD : TrainState :=
  { runC with counter := 857 }

/-- After 1250 ticks (chuff sequence finished, whistle launch pending). -/
def runE : TrainState :=
  { runD with mozziMode := 1, chuffDelay := 50, whichSound := 4,
              counter := 1078, kDelayDur := 1050, kEnvAttack := 75,
              kEnvDecay := 925 }

/-- After 1374 ticks: the whistle has played its Initial stage, the Mozzi
delay has expired (`inMozzi = 0`), and the Tritone stage is due next tick
while the whistle sub-machine is still active. -/
def midWhistleState : TrainState :=
  { runE with mozziMode := 3, inWhistle := 1, curWhistle := 1,
              whichSound := 0, counter := 1201, kDelayDur := 900 }

set_option maxRecDepth 100000 in
lemma runPolicy_chunk1 : runPolicy 250 initTrainState = runA := by decide

set_option maxRecDepth 100000 in
lemma runPolicy_chunk2 : runPolicy 250 runA = runB := by decide

set_option maxRecDepth 100000 in
lemma runPolicy_chunk3 : runPolicy 250 runB = runC := by decide

set_option maxRecDepth 100000 in
lemma runPolicy_chunk4 : runPolicy 250 runC = runD := by decide

set_option maxRecDepth 100000 in
lemma runPolicy_chunk5 : runPolicy 250 runD = runE := by decide

set_option maxRecDepth 100000 in
lemma runPolicy_chunk6 : runPolicy 124 runE = midWhistleState := by decide

lemma reachable_midWhistleState : Reachable midWhistleState := by
  have h1 : Reachable runA :=
    runPolicy_chunk1 ▸ reachable_runPolicy 250 initTrainState Reachable.init
  have h2 : Reachable runB := runPolicy_chunk2 ▸ reachable_runPolicy 250 runA h1
  have h3 : Reachable runC := runPolicy_chunk3 ▸ reachable_runPolicy 250 runB h2
  have h4 : Reachable runD := runPolicy_chunk4 ▸ reachable_runPolicy 250 runC h3
  have h5 : Reachable runE := runPolicy_chunk5 ▸ reachable_runPolicy 250 runD h4
  exact runPolicy_chunk6 ▸ reachable_runPolicy 124 runE h5

/-- The lighting draw of the tick that exhibits the bug: zone 2 is selected
and repainted as the engine front light. -/
def whistleTickRand : Rand := ⟨2, 0, 0, 0, 0, 0, 0, 0, 0⟩

/-- Claim C2 (code bug): `midWhistleState` is a reachable state in which the
whistle sub-machine is mid-sequence (`inWhistle = 1`, stage Tritone due) with
the Mozzi delay expired; the very next tick both starts the Tritone tone
(`inMozzi` is 1 again afterwards) and repaints light zone 2, because the
`inWhistle` branch of `loop()` (line 774) falls through to `trainLights()`
instead of returning as the melody and chuff branches do. So a zone value
changes on a tick on which a sound sub-machine is active, against the freeze
invariant. -/
theorem lights_change_during_whistle :
    midWhistleState.inWhistle = 1 ∧
    midWhistleState.inMozzi = 0 ∧
    Reachable midWhistleState ∧
    (tick midWhistleState ⟨true, whistleTickRand⟩).inMozzi = 1 ∧
    (tick midWhistleState ⟨true, whistleTickRand⟩).inWhistle = 1 ∧
    zoneColor (tick midWhistleState ⟨true, whistleTickRand⟩).zones 2 ≠
      zoneColor midWhistleState.zones 2 :=
  ⟨rfl, rfl, reachable_midWhistleState, rfl, rfl, by decide⟩

end HoggyTrain
